import Mathlib

/-!
Verification of the `microbial` dashboard scripts (streamlit_app.py,
integrated_dashboard.py, integrated_dashboard2.py, integrated_dashboard3.py,
protein_visualizer.py) against their specification.

Modelling conventions (shallow embedding):
* NumPy's global random generator is modelled by explicit draw streams:
  `u : ℕ → ℚ` supplies unit-interval draws (each `u i ∈ [0,1)`) backing
  `np.random.uniform`, `g : ℕ → ℚ` supplies standard-normal draws backing
  `np.random.normal`, and `c : ℕ → ℕ` supplies index draws backing
  `np.random.choice`.  Sequential consumption of the generator is modelled by
  shifting a stream with `shiftQ`.
* Floating-point values are idealised as exact rationals (for sampled data)
  or exact reals (for the trigonometric series).
-/

/-- Advance a rational draw stream past its first `k` values, modelling the
draws already consumed from the global generator. -/
def shiftQ (f : ℕ → ℚ) (k : ℕ) : ℕ → ℚ := fun i => f (k + i)

/-- `np.random.uniform(lo, hi, n)`: `n` draws, the `i`-th being
`lo + u i * (hi - lo)` for a unit-interval draw `u i`. -/
def uniformSeries (u : ℕ → ℚ) (lo hi : ℚ) (n : ℕ) : List ℚ :=
  (List.range n).map fun i => lo + u i * (hi - lo)

/-- `np.random.normal(mu, sigma, n)`: `n` draws, the `i`-th being
`mu + sigma * g i` for a standard-normal draw `g i`. -/
def normalDraws (g : ℕ → ℚ) (mu sigma : ℚ) (n : ℕ) : List ℚ :=
  (List.range n).map fun i => mu + sigma * g i

/-- Running-sum worker for `np.cumsum`, carrying the sum accumulated so far. -/
def cumsumAux (acc : ℚ) : List ℚ → List ℚ
  | [] => []
  | x :: xs => (acc + x) :: cumsumAux (acc + x) xs

/-- `np.cumsum`: the list of running partial sums. -/
def cumsum (l : List ℚ) : List ℚ := cumsumAux 0 l

/-- Random-walk series `np.cumsum(np.random.normal(0, sigma, n)) + offset`,
the pattern used for the carbon-credit balance and the protein
concentration series. -/
def randomWalk (g : ℕ → ℚ) (sigma offset : ℚ) (n : ℕ) : List ℚ :=
  (cumsum (normalDraws g 0 sigma n)).map fun x => x + offset

/-- Carbon-credits balance of `show_carbon_credits` in streamlit_app.py:
`np.cumsum(np.random.normal(0, 10, 30)) + 1000`. -/
def carbonCreditsSeries (g : ℕ → ℚ) : List ℚ := randomWalk g 10 1000 30

/-- Protein-concentration series of `show_protein_conversion` in
streamlit_app.py: `np.cumsum(np.random.normal(0, 0.1, 100)) + 5`. -/
def proteinLevelsSeries (g : ℕ → ℚ) : List ℚ := randomWalk g (1/10) 5 100

/-- `np.random.choice(opts, n)`: `n` picks from `opts`, the `i`-th selected
by the index draw `c i` reduced modulo the number of options. -/
def randomChoice (c : ℕ → ℕ) (opts : List String) (n : ℕ) : List String :=
  (List.range n).map fun i => opts.getD (c i % opts.length) ""

lemma uniformSeries_length (u : ℕ → ℚ) (lo hi : ℚ) (n : ℕ) :
    (uniformSeries u lo hi n).length = n := by
  simp [uniformSeries]

lemma cumsumAux_length (acc : ℚ) (l : List ℚ) :
    (cumsumAux acc l).length = l.length := by
  induction l generalizing acc with
  | nil => rfl
  | cons x xs ih => simp [cumsumAux, ih]

lemma cumsumAux_getD (acc : ℚ) (l : List ℚ) (i : ℕ) (hi : i < l.length) :
    (cumsumAux acc l).getD i 0 = acc + (l.take (i + 1)).sum := by
  induction l generalizing acc i with
  | nil => simp at hi
  | cons x xs ih =>
    cases i with
    | zero => simp [cumsumAux]
    | succ j =>
      have hj : j < xs.length := by simpa using hi
      simp only [cumsumAux, List.getD_cons_succ, List.take_succ_cons, List.sum_cons]
      rw [ih (acc + x) j hj]
      ring

lemma randomWalk_length (g : ℕ → ℚ) (sigma offset : ℚ) (n : ℕ) :
    (randomWalk g sigma offset n).length = n := by
  simp [randomWalk, cumsum, cumsumAux_length, normalDraws]

/-- C3: for every count `N ≥ 0` and bounds `lo < hi`, a uniform-range series
call returns exactly `N` values, each `v` with `lo ≤ v < hi`. -/
theorem uniform_range_series_spec (u : ℕ → ℚ) (lo hi : ℚ) (n : ℕ)
    (hlohi : lo < hi) (hu : ∀ i, 0 ≤ u i ∧ u i < 1) :
    (uniformSeries u lo hi n).length = n ∧
      ∀ v ∈ uniformSeries u lo hi n, lo ≤ v ∧ v < hi := by
  refine ⟨uniformSeries_length u lo hi n, ?_⟩
  intro v hv
  simp only [uniformSeries, List.mem_map, List.mem_range] at hv
  obtain ⟨i, -, rfl⟩ := hv
  obtain ⟨h0, h1⟩ := hu i
  constructor
  · nlinarith
  · nlinarith

/-- Witness for C3 at the constant stream `u = 0`, `lo = 0`, `hi = 1`, `N = 3`. -/
theorem uniform_range_series_spec_witness :
    (uniformSeries (fun _ => 0) 0 1 3).length = 3 ∧
      ∀ v ∈ uniformSeries (fun _ => (0 : ℚ)) 0 1 3, 0 ≤ v ∧ v < 1 :=
  uniform_range_series_spec (fun _ => 0) 0 1 3 (by norm_num)
    (fun _ => by norm_num)

/-- C4: for every length `N ≥ 1`, a random-walk series of length `N` is the
running cumulative sum of the `N` mean-zero normal draws plus the constant
offset: element `i` equals the offset plus the sum of the first `i + 1`
draws. -/
theorem random_walk_series_spec (g : ℕ → ℚ) (sigma offset : ℚ) (n : ℕ)
    (hn : 1 ≤ n) (i : ℕ) (hi : i < n) :
    (randomWalk g sigma offset n).length = n ∧
      (randomWalk g sigma offset n).getD i 0 =
        offset + ((normalDraws g 0 sigma n).take (i + 1)).sum := by
  refine ⟨randomWalk_length g sigma offset n, ?_⟩
  have hlen : i < (cumsum (normalDraws g 0 sigma n)).length := by
    simpa [cumsum, cumsumAux_length, normalDraws] using hi
  have hmap : (randomWalk g sigma offset n).getD i 0 =
      (cumsum (normalDraws g 0 sigma n)).getD i 0 + offset := by
    rw [randomWalk, List.getD_eq_getElem?_getD, List.getElem?_map,
      List.getElem?_eq_getElem hlen]
    simp [List.getD_eq_getElem?_getD, List.getElem?_eq_getElem hlen]
  rw [hmap, cumsum, cumsumAux_getD 0 _ i (by simpa [normalDraws] using hi)]
  ring

/-- Witness for C4 at the constant normal stream `g = 1`, `sigma = 2`,
`offset = 7`, `N = 3`, `i = 1`. -/
theorem random_walk_series_spec_witness :
    (randomWalk (fun _ => 1) 2 7 3).length = 3 ∧
      (randomWalk (fun _ => 1) 2 7 3).getD 1 0 =
        7 + ((normalDraws (fun _ => 1) 0 2 3).take 2).sum :=
  random_walk_series_spec (fun _ => 1) 2 7 3 (by norm_num) 1 (by norm_num)

/-- One row handed to the map chart: identifier, latitude, longitude,
status string, and an energy magnitude sampled per render. -/
structure MapRec where
  gsp : String
  lat : ℚ
  lon : ℚ
  status : String
  energy : ℚ
deriving DecidableEq, Inhabited

/-- The `gsp_locations` table of `PTTEnergyDashboard.__init__` in
streamlit_app.py (identifier, latitude, longitude; no status field). -/
def streamlit_app_gsp_locations : List (String × ℚ × ℚ) :=
  [("GSP1", 12.7503, 101.1318),
   ("GSP2", 12.7432, 101.1445),
   ("GSP3", 12.7366, 101.1392),
   ("GSP4", 12.7299, 101.1503),
   ("GSP5", 12.7233, 101.1477),
   ("GSP6", 12.7166, 101.1555)]

/-- The `gsp_locations` table of `IntegratedDashboard.__init__` in
integrated_dashboard.py (identifier, latitude, longitude, status). -/
def integrated_dashboard_gsp_locations : List (String × ℚ × ℚ × String) :=
  [("GSP1", 12.7503, 101.1318, "Operational"),
   ("GSP2", 12.7432, 101.1445, "Operational"),
   ("GSP3", 12.7366, 101.1392, "Maintenance"),
   ("GSP4", 12.7299, 101.1503, "Operational"),
   ("GSP5", 12.7233, 101.1477, "Operational"),
   ("GSP6", 12.7166, 101.1555, "Under Review")]

/-- The `gsp_locations` table set up by `initialize_data` in
integrated_dashboard2.py. -/
def integrated_dashboard2_gsp_locations : List (String × ℚ × ℚ × String) :=
  [("GSP1", 12.7503, 101.1318, "Operational"),
   ("GSP2", 12.7432, 101.1445, "Operational"),
   ("GSP3", 12.7366, 101.1392, "Maintenance"),
   ("GSP4", 12.7299, 101.1503, "Operational"),
   ("GSP5", 12.7233, 101.1477, "Operational"),
   ("GSP6", 12.7166, 101.1555, "Under Review")]

/-- The `gsp_locations` table set up by `initialize_data` in
integrated_dashboard3.py. -/
def integrated_dashboard3_gsp_locations : List (String × ℚ × ℚ × String) :=
  [("GSP1", 12.7503, 101.1318, "Operational"),
   ("GSP2", 12.7432, 101.1445, "Operational"),
   ("GSP3", 12.7366, 101.1392, "Maintenance"),
   ("GSP4", 12.7299, 101.1503, "Operational"),
   ("GSP5", 12.7233, 101.1477, "Operational"),
   ("GSP6", 12.7166, 101.1555, "Under Review")]

/-- Identifier and coordinate projection of a table that also carries a
status column. -/
def idLatLon (t : List (String × ℚ × ℚ × String)) : List (String × ℚ × ℚ) :=
  t.map fun e => (e.1, e.2.1, e.2.2.1)

/-- The plant table declared by protein_visualizer.py: the
`CO2ProteinVisualizer` class declares no `gsp_locations` table anywhere, so
its entry is `none`. -/
def protein_visualizer_gsp_locations : Option (List (String × ℚ × ℚ)) := none

/-- Per-script plant coordinate tables (identifier/latitude/longitude
projection), `none` where the script declares no table. -/
def scriptTables : List (String × Option (List (String × ℚ × ℚ))) :=
  [("streamlit_app", some streamlit_app_gsp_locations),
   ("integrated_dashboard", some (idLatLon integrated_dashboard_gsp_locations)),
   ("integrated_dashboard2", some (idLatLon integrated_dashboard2_gsp_locations)),
   ("integrated_dashboard3", some (idLatLon integrated_dashboard3_gsp_locations)),
   ("protein_visualizer", protein_visualizer_gsp_locations)]

/-- Status strings drawn by `show_gsp_map` in streamlit_app.py via
`np.random.choice(['Optimal', 'Warning', 'Critical'], 6)`. -/
def statusOptions : List String := ["Optimal", "Warning", "Critical"]

/-- The status enum of the spec's PlantSite entity, as the literal strings
used by the integrated dashboards. -/
def plantStatusEnum : List String := ["Operational", "Maintenance", "Under Review"]

/-- Map rows built by `show_gsp_map` in streamlit_app.py: table identifiers
and coordinates, a randomly chosen status, and a uniform energy draw. -/
def show_gsp_map_streamlit (c : ℕ → ℕ) (u : ℕ → ℚ) : List MapRec :=
  List.zipWith
    (fun (e : String × ℚ × ℚ) (p : String × ℚ) =>
      { gsp := e.1, lat := e.2.1, lon := e.2.2, status := p.1, energy := p.2 })
    streamlit_app_gsp_locations
    (List.zip (randomChoice c statusOptions 6) (uniformSeries u 100 500 6))

/-- Map rows built by `show_gsp_map` in integrated_dashboard.py: table
identifiers, coordinates and statuses, and a uniform energy draw. -/
def show_gsp_map_int (u : ℕ → ℚ) : List MapRec :=
  List.zipWith
    (fun (e : String × ℚ × ℚ × String) (en : ℚ) =>
      { gsp := e.1, lat := e.2.1, lon := e.2.2.1, status := e.2.2.2, energy := en })
    integrated_dashboard_gsp_locations
    (uniformSeries u 100 500 6)

lemma statusOptions_getD_mem (k : ℕ) :
    statusOptions.getD (k % statusOptions.length) "" ∈ statusOptions := by
  have h : k % 3 = 0 ∨ k % 3 = 1 ∨ k % 3 = 2 := by omega
  rcases h with h | h | h <;> simp [statusOptions, h]

/-- C2 counterexample: on a concrete render of streamlit_app.py's
`show_gsp_map` (index stream constantly 0, unit stream constantly 0) the
first map record's status is "Optimal", which is not one of the PlantSite
enum values. -/
theorem gsp_map_status_enum_cex :
    ((show_gsp_map_streamlit (fun _ => 0) (fun _ => 0)).getD 0 default).status =
      "Optimal" ∧ "Optimal" ∉ plantStatusEnum := by
  exact ⟨rfl, by decide⟩

/-- C2 (amended): on every render each of the two cited map layers
(`show_gsp_map` of integrated_dashboard.py and of streamlit_app.py) receives
exactly 6 records with distinct identifiers and the literal table
coordinates; integrated_dashboard.py's statuses are the table's and lie in
the PlantSite enum, while streamlit_app.py's statuses are drawn from
{Optimal, Warning, Critical}. -/
theorem gsp_map_records_spec (c : ℕ → ℕ) (u v : ℕ → ℚ) :
    (show_gsp_map_int u).length = 6 ∧
    ((show_gsp_map_int u).map MapRec.gsp).Nodup ∧
    ((show_gsp_map_int u).map fun r => (r.gsp, r.lat, r.lon)) =
      idLatLon integrated_dashboard_gsp_locations ∧
    ((show_gsp_map_int u).map MapRec.status) =
      ["Operational", "Operational", "Maintenance",
       "Operational", "Operational", "Under Review"] ∧
    (((show_gsp_map_int u).map MapRec.status).all
      (fun s => plantStatusEnum.contains s)) = true ∧
    (show_gsp_map_streamlit c v).length = 6 ∧
    ((show_gsp_map_streamlit c v).map MapRec.gsp).Nodup ∧
    ((show_gsp_map_streamlit c v).map fun r => (r.gsp, r.lat, r.lon)) =
      streamlit_app_gsp_locations ∧
    ∀ i : Fin 6,
      ((show_gsp_map_streamlit c v).getD (i : ℕ) default).status ∈ statusOptions := by
  have hids1 : (show_gsp_map_int u).map MapRec.gsp =
      ["GSP1", "GSP2", "GSP3", "GSP4", "GSP5", "GSP6"] := rfl
  have hids2 : (show_gsp_map_streamlit c v).map MapRec.gsp =
      ["GSP1", "GSP2", "GSP3", "GSP4", "GSP5", "GSP6"] := rfl
  refine ⟨rfl, by rw [hids1]; decide, rfl, rfl, rfl, rfl,
    by rw [hids2]; decide, rfl, ?_⟩
  intro i
  fin_cases i
  · exact statusOptions_getD_mem (c 0)
  · exact statusOptions_getD_mem (c 1)
  · exact statusOptions_getD_mem (c 2)
  · exact statusOptions_getD_mem (c 3)
  · exact statusOptions_getD_mem (c 4)
  · exact statusOptions_getD_mem (c 5)

/-- C8 counterexample: protein_visualizer.py declares no `gsp_locations`
table, so not every script re-declares the plant coordinate table. -/
theorem plant_table_missing_cex :
    protein_visualizer_gsp_locations = none ∧
      (scriptTables.map fun e => e.2.isSome) = [true, true, true, true, false] :=
  ⟨rfl, rfl⟩

/-- C8 (amended): four of the five scripts declare a `gsp_locations` table,
and those four agree on the six identifiers and their coordinates;
protein_visualizer.py declares none. -/
theorem plant_tables_agree :
    idLatLon integrated_dashboard_gsp_locations = streamlit_app_gsp_locations ∧
    idLatLon integrated_dashboard2_gsp_locations = streamlit_app_gsp_locations ∧
    idLatLon integrated_dashboard3_gsp_locations = streamlit_app_gsp_locations ∧
    (streamlit_app_gsp_locations.map fun e => e.1).Nodup ∧
    streamlit_app_gsp_locations.length = 6 ∧
    protein_visualizer_gsp_locations = none ∧
    (scriptTables.filter fun e => e.2.isSome).length = 4 :=
  ⟨rfl, rfl, rfl, by decide, rfl, rfl, rfl⟩

/-- `np.linspace(a, b, n)`: `n` evenly spaced samples from `a` to `b`
inclusive, the `i`-th being `a + (b - a) * i / (n - 1)`. -/
noncomputable def linspace (a b : ℝ) (n : ℕ) : List ℝ :=
  (List.range n).map fun i : ℕ => a + (b - a) * (i : ℝ) / ((n : ℝ) - 1)

/-- The angle array `np.linspace(0, 2 * np.pi, 100)` used by
`show_molecular_animation`. -/
noncomputable def molecularTimes : List ℝ := linspace 0 (2 * Real.pi) 100

/-- The circular (x, y) points of `show_molecular_animation`:
`(np.cos(times), np.sin(times))`. -/
noncomputable def molecularPoints : List (ℝ × ℝ) :=
  molecularTimes.map fun t => (Real.cos t, Real.sin t)

/-- Full rows of `show_molecular_animation` in integrated_dashboard.py:
x, y, and marker size `np.abs(np.sin(times)) * 10`. -/
noncomputable def molecularAnimRows : List (ℝ × ℝ × ℝ) :=
  molecularTimes.map fun t => (Real.cos t, Real.sin t, |Real.sin t| * 10)

/-- The spherical point cloud of `create_3d_protein_simulation` in
integrated_dashboard3.py: `theta = np.random.uniform(0, 2π, n)`,
`phi = np.random.uniform(0, π, n)`, `r = np.random.normal(1, 0.1, n)`,
position `(r sin φ cos θ, r sin φ sin θ, r cos φ)`. -/
noncomputable def sphereSim (u g : ℕ → ℚ) (n : ℕ) : List (ℝ × ℝ × ℝ) :=
  (List.range n).map fun i =>
    ((1 + (1 / 10 : ℝ) * (g i : ℝ)) * Real.sin ((u (n + i) : ℝ) * Real.pi) *
       Real.cos ((u i : ℝ) * (2 * Real.pi)),
     (1 + (1 / 10 : ℝ) * (g i : ℝ)) * Real.sin ((u (n + i) : ℝ) * Real.pi) *
       Real.sin ((u i : ℝ) * (2 * Real.pi)),
     (1 + (1 / 10 : ℝ) * (g i : ℝ)) * Real.cos ((u (n + i) : ℝ) * Real.pi))

/-- The four headline metric cards (title, value, delta, icon), hard-coded
in `show_key_metrics` / `show_energy_metrics`. -/
def energyMetricCards : List (String × String × String × String) :=
  [("Total Energy Consumption", "1,234 MWh", "-2.5%", "bolt"),
   ("Carbon Emissions", "456 tons", "-3.2%", "leaf"),
   ("Carbon Credits", "789 units", "+5.1%", "money"),
   ("Efficiency Score", "94.5%", "+1.2%", "chart")]

/-- The conversion-pipeline stages and hard-coded gauge values of
`show_conversion_pipeline`. -/
def conversionPipeline : List (String × ℚ) :=
  [("CO2 Capture", 85), ("Bacterial Processing", 92),
   ("Protein Synthesis", 78), ("Final Product", 95)]

/-- Column data of a 3D scatter chart. -/
structure Scatter3D where
  x : List ℚ
  y : List ℚ
  z : List ℚ
  size : List ℚ
  color : List ℚ
deriving DecidableEq

/-- The unseeded 3D scatter of `create_3d_protein_simulation` in
integrated_dashboard.py: three blocks of 1000 standard-normal coordinates,
then 1000 uniform sizes in [2, 8) and 1000 uniform colors in [0, 1). -/
def protein3dSim (u g : ℕ → ℚ) : Scatter3D :=
  { x := normalDraws g 0 1 1000
    y := normalDraws (shiftQ g 1000) 0 1 1000
    z := normalDraws (shiftQ g 2000) 0 1 1000
    size := uniformSeries u 2 8 1000
    color := uniformSeries (shiftQ u 1000) 0 1 1000 }

/-- Energy-trend series of `show_energy_trends` in integrated_dashboard.py:
plant `GSP i` gets `np.random.uniform(100, 150, 30) + i * 10`, consuming 30
draws per plant in order. -/
def energyTrendsSeries (u : ℕ → ℚ) : List (String × List ℚ) :=
  (List.range 6).map fun k =>
    ("GSP" ++ toString (k + 1),
     (uniformSeries (shiftQ u (30 * k)) 100 150 30).map
       fun x => x + 10 * ((k : ℚ) + 1))

/-- Everything `run_dashboard` of integrated_dashboard.py hands to charts. -/
structure DashboardOutput where
  metrics : List (String × String × String × String)
  mapRecs : List MapRec
  trends : List (String × List ℚ)
  scatter3d : Scatter3D
  pipeline : List (String × ℚ)
  molecular : List (ℝ × ℝ × ℝ)

/-- `run_dashboard` of integrated_dashboard.py. `create_sidebar` returns
`(selected_gsp, time_range, co2_threshold)`; as in the source those values
are never used by any chart. Uniform draws are consumed in call order: 6 by
the map, 180 by the trends, then 2000 by the 3D scatter. -/
noncomputable def run_dashboard_int (selected_gsp time_range : String)
    (co2_threshold : ℕ) (u g : ℕ → ℚ) : DashboardOutput :=
  { metrics := energyMetricCards
    mapRecs := show_gsp_map_int u
    trends := energyTrendsSeries (shiftQ u 6)
    scatter3d := protein3dSim (shiftQ u 186) g
    pipeline := conversionPipeline
    molecular := molecularAnimRows }

/-- Per-plant uniform bounds of `show_energy_consumption` in
streamlit_app.py. -/
def energyRanges : List (ℚ × ℚ) :=
  [(100, 150), (120, 170), (90, 140), (110, 160), (95, 145), (105, 155)]

/-- `show_energy_consumption` of streamlit_app.py: six 30-point uniform
series, one per plant, with per-plant bounds, consumed in order. -/
def show_energy_consumption_series (u : ℕ → ℚ) : List (String × List ℚ) :=
  (List.range 6).map fun k =>
    ("GSP" ++ toString (k + 1),
     uniformSeries (shiftQ u (30 * k)) (energyRanges.getD k (0, 0)).1
       (energyRanges.getD k (0, 0)).2 30)

/-- Everything `create_dashboard` of streamlit_app.py hands to charts. -/
structure StreamlitOutput where
  keyMetrics : List (String × String × String × String)
  mapRecs : List MapRec
  energySeries : List (String × List ℚ)
  carbonCredits : List ℚ
  efficiency : List ℚ
  proteinLevels : List ℚ
  gaugeValue : ℚ
deriving DecidableEq

/-- `create_dashboard` of streamlit_app.py. The sidebar's selected plant,
time range and CO2 threshold are read in `create_sidebar` and, as in the
source, never used afterwards. Draw consumption in call order: map (6 choice
+ 6 uniform), energy trends (180 uniform), carbon credits (30 normal),
efficiency (6 uniform), protein levels (100 normal); the gauge value 84.3 is
hard-coded. -/
def create_dashboard_streamlit (selected_plant time_range : String)
    (co2_threshold : ℕ) (c : ℕ → ℕ) (u g : ℕ → ℚ) : StreamlitOutput :=
  { keyMetrics := energyMetricCards
    mapRecs := show_gsp_map_streamlit c u
    energySeries := show_energy_consumption_series (shiftQ u 6)
    carbonCredits := carbonCreditsSeries g
    efficiency := uniformSeries (shiftQ u 186) 85 98 6
    proteinLevels := proteinLevelsSeries (shiftQ g 30)
    gaugeValue := 84.3 }

lemma molecularPoints_length : molecularPoints.length = 100 := by
  rw [molecularPoints, List.length_map, molecularTimes, linspace,
    List.length_map, List.length_range]

lemma molecularPoints_getD (i : ℕ) (hi : i < 100) :
    molecularPoints.getD i (0, 0) =
      (Real.cos (2 * Real.pi * i / 99), Real.sin (2 * Real.pi * i / 99)) := by
  have harg : (0 : ℝ) + (2 * Real.pi - 0) * (i : ℝ) / (((100 : ℕ) : ℝ) - 1) =
      2 * Real.pi * (i : ℝ) / 99 := by
    push_cast
    ring_nf
  rw [molecularPoints, molecularTimes, List.getD_eq_getElem?_getD,
    List.getElem?_map, linspace, List.getElem?_map, List.getElem?_range hi]
  simp only [Option.map_some', Option.getD_some]
  rw [harg]

/-- C5: every sampled point of the parametric circular series over the
100-point angle array lies exactly on the unit circle. -/
theorem molecular_points_unit_circle (i : Fin 100) :
    (molecularPoints.getD (i : ℕ) (0, 0)).1 ^ 2 +
      (molecularPoints.getD (i : ℕ) (0, 0)).2 ^ 2 = 1 := by
  rw [molecularPoints_getD (i : ℕ) i.isLt]
  exact Real.cos_sq_add_sin_sq _

/-- C10: the circular series is a closed sampled curve: its first and its
last point are both exactly (1, 0), hence equal. -/
theorem molecular_curve_closed :
    molecularPoints.getD 0 (0, 0) = (1, 0) ∧
      molecularPoints.getD 99 (0, 0) = (1, 0) ∧
      molecularPoints.getD 0 (0, 0) = molecularPoints.getD 99 (0, 0) := by
  have h0 := molecularPoints_getD 0 (by norm_num)
  have h99 := molecularPoints_getD 99 (by norm_num)
  have e0 : 2 * Real.pi * ((0 : ℕ) : ℝ) / 99 = 0 := by norm_num
  have e99 : 2 * Real.pi * ((99 : ℕ) : ℝ) / 99 = 2 * Real.pi := by
    push_cast
    ring_nf
  rw [e0] at h0
  rw [e99] at h99
  refine ⟨?_, ?_, ?_⟩
  · rw [h0]; simp
  · rw [h99]; simp [Real.cos_two_pi, Real.sin_two_pi]
  · rw [h0, h99]; simp [Real.cos_two_pi, Real.sin_two_pi]

/-- C6 counterexample: two invocations of integrated_dashboard3.py's
spherical point cloud with identical angle draws (unit stream constantly 0)
but different radius draws produce different point clouds, so the spherical
series is not determined by the angle sweep alone. -/
theorem sphere_sim_depends_on_draws_cex :
    sphereSim (fun _ => 0) (fun _ => 0) 1 ≠ sphereSim (fun _ => 0) (fun _ => 1) 1 := by
  intro h
  have h2 : ((sphereSim (fun _ => 0) (fun _ => 0) 1).getD 0 (0, 0, 0)).2.2 =
      ((sphereSim (fun _ => 0) (fun _ => 1) 1).getD 0 (0, 0, 0)).2.2 := by
    rw [h]
  have e1 : ((sphereSim (fun _ => 0) (fun _ => 0) 1).getD 0 (0, 0, 0)).2.2 =
      (1 + (1 / 10 : ℝ) * ((0 : ℚ) : ℝ)) * Real.cos (((0 : ℚ) : ℝ) * Real.pi) :=
    rfl
  have e2 : ((sphereSim (fun _ => 0) (fun _ => 1) 1).getD 0 (0, 0, 0)).2.2 =
      (1 + (1 / 10 : ℝ) * ((1 : ℚ) : ℝ)) * Real.cos (((0 : ℚ) : ℝ) * Real.pi) :=
    rfl
  rw [e1, e2, Rat.cast_zero, Rat.cast_one, zero_mul, Real.cos_zero] at h2
  norm_num at h2

/-- C6 (amended): the parametric circular series is deterministic given the
angle array, with no dependence on any random draws; the spherical series of
`create_3d_protein_simulation` is determined only by the drawn angles and
radii together: invocations whose uniform (angle) and normal (radius) draws
coincide produce identical point clouds. -/
theorem parametric_series_determinism (u g u2 g2 v w v2 w2 : ℕ → ℚ) (n : ℕ)
    (hv : ∀ i, v i = v2 i) (hw : ∀ i, w i = w2 i) :
    (run_dashboard_int "All Plants" "24H" 500 u g).molecular =
      (run_dashboard_int "All Plants" "7D" 900 u2 g2).molecular ∧
    sphereSim v w n = sphereSim v2 w2 n := by
  refine ⟨rfl, ?_⟩
  simp only [sphereSim]
  refine List.map_congr_left ?_
  intro i _
  rw [hv i, hv (n + i), hw i]

/-- Witness for the amended C6 at concrete coinciding streams. -/
theorem parametric_series_determinism_witness :
    (run_dashboard_int "All Plants" "24H" 500 (fun _ => 0) (fun _ => 0)).molecular =
      (run_dashboard_int "All Plants" "7D" 900 (fun _ => 0) (fun _ => 0)).molecular ∧
    sphereSim (fun _ => 0) (fun _ => 1) 1 = sphereSim (fun _ => 0) (fun _ => 1) 1 :=
  parametric_series_determinism (fun _ => 0) (fun _ => 0) (fun _ => 0)
    (fun _ => 0) (fun _ => 0) (fun _ => 1) (fun _ => 0) (fun _ => 1) 1
    (fun _ => rfl) (fun _ => rfl)

/-- A state of NumPy's global generator: the streams its future uniform and
normal draws will come from. -/
structure NPStreams where
  u : ℕ → ℚ
  g : ℕ → ℚ

/-- `np.random.seed`: resets the global generator to the state determined by
the seed alone; `prng` models the generator family, mapping each seed to the
streams it produces. -/
def npSeed (prng : ℕ → NPStreams) (seed : ℕ) : NPStreams := prng seed

/-- `create_3d_protein_simulation` of protein_visualizer.py: seeds the
global generator with 42, then draws x, y, z as 1000 standard normals each
and size, color as 1000 uniforms each. `ambient` is the generator state the
run happens to start with; seeding discards it. -/
def create_3d_protein_sim_pv (prng : ℕ → NPStreams) (ambient : NPStreams) :
    Scatter3D :=
  let s := npSeed prng 42
  { x := normalDraws s.g 0 1 1000
    y := normalDraws (shiftQ s.g 1000) 0 1 1000
    z := normalDraws (shiftQ s.g 2000) 0 1 1000
    size := uniformSeries s.u 2 8 1000
    color := uniformSeries (shiftQ s.u 1000) 0 1 1000 }

/-- C7: the one 3D scatter case that sets seed 42 before generating its 1000
points is reproducible across runs: whatever generator states two runs start
from, the x, y, z, size and color sequences are identical. -/
theorem seeded_scatter_reproducible (prng : ℕ → NPStreams)
    (run1 run2 : NPStreams) :
    create_3d_protein_sim_pv prng run1 = create_3d_protein_sim_pv prng run2 :=
  rfl

/-- C1: the sidebar selections (selected plant, time range, CO2 threshold)
are inert: two renders with the same draw streams but different sidebar
selections produce identical chart inputs, in both integrated_dashboard.py's
`run_dashboard` and streamlit_app.py's `create_dashboard`. -/
theorem sidebar_controls_inert (p1 t1 : String) (th1 : ℕ) (p2 t2 : String)
    (th2 : ℕ) (c : ℕ → ℕ) (u g : ℕ → ℚ) :
    run_dashboard_int p1 t1 th1 u g = run_dashboard_int p2 t2 th2 u g ∧
      create_dashboard_streamlit p1 t1 th1 c u g =
        create_dashboard_streamlit p2 t2 th2 c u g :=
  ⟨rfl, rfl⟩

/-- State of the `IntegratedDashboard` object of integrated_dashboard2.py:
its `gsp_locations` attribute, paired with the positions already consumed
from the ambient uniform and normal draw streams. -/
structure Dash2State where
  gsp_locations : List (String × ℚ × ℚ × String)
  uPos : ℕ
  gPos : ℕ

/-- Object state at the end of `__init__` / `initialize_data` of
integrated_dashboard2.py. -/
def dash2Init : Dash2State := ⟨integrated_dashboard2_gsp_locations, 0, 0⟩

/-- `create_sidebar` of integrated_dashboard2.py: reads the widget values
and returns them, touching no dashboard data and no draws. -/
def create_sidebar2 (sel : String × String × ℕ) (s : Dash2State) :
    (String × String × ℕ) × Dash2State := (sel, s)

/-- `show_energy_metrics` of integrated_dashboard2.py: four hard-coded
metric cards; no draws. -/
def show_energy_metrics2 (s : Dash2State) :
    List (String × String × String × String) × Dash2State :=
  (energyMetricCards, s)

/-- `show_gsp_map` of integrated_dashboard2.py: reads the table and draws 6
uniform energies. -/
def show_gsp_map2 (u : ℕ → ℚ) (s : Dash2State) : List MapRec × Dash2State :=
  (List.zipWith
     (fun (e : String × ℚ × ℚ × String) (en : ℚ) =>
       { gsp := e.1, lat := e.2.1, lon := e.2.2.1, status := e.2.2.2,
         energy := en })
     s.gsp_locations (uniformSeries (shiftQ u s.uPos) 100 500 6),
   { s with uPos := s.uPos + 6 })

/-- `show_energy_trends` of integrated_dashboard2.py: six 30-point uniform
series, `GSP i` offset by `i * 10`. -/
def show_energy_trends2 (u : ℕ → ℚ) (s : Dash2State) :
    List (String × List ℚ) × Dash2State :=
  ((List.range 6).map fun k =>
     ("GSP" ++ toString (k + 1),
      (uniformSeries (shiftQ u (s.uPos + 30 * k)) 100 150 30).map
        fun x => x + 10 * ((k : ℚ) + 1)),
   { s with uPos := s.uPos + 180 })

/-- `show_efficiency_analysis` of integrated_dashboard2.py: the plant names
from the table and 6 uniform efficiencies in [85, 98). -/
def show_efficiency_analysis2 (u : ℕ → ℚ) (s : Dash2State) :
    (List String × List ℚ) × Dash2State :=
  ((s.gsp_locations.map fun e => e.1,
    uniformSeries (shiftQ u s.uPos) 85 98 6),
   { s with uPos := s.uPos + 6 })

/-- `create_3d_protein_simulation` of integrated_dashboard2.py: 3000 normal
coordinate draws and 2000 uniform size/color draws. -/
def create_3d_protein_simulation2 (u g : ℕ → ℚ) (s : Dash2State) :
    Scatter3D × Dash2State :=
  ({ x := normalDraws (shiftQ g s.gPos) 0 1 1000
     y := normalDraws (shiftQ g (s.gPos + 1000)) 0 1 1000
     z := normalDraws (shiftQ g (s.gPos + 2000)) 0 1 1000
     size := uniformSeries (shiftQ u s.uPos) 2 8 1000
     color := uniformSeries (shiftQ u (s.uPos + 1000)) 0 1 1000 },
   { s with uPos := s.uPos + 2000, gPos := s.gPos + 3000 })

/-- Chart inputs produced by `run_dashboard` of integrated_dashboard2.py. -/
structure Dash2Output where
  metrics : List (String × String × String × String)
  mapRecs : List MapRec
  trends : List (String × List ℚ)
  efficiency : List String × List ℚ
  scatter3d : Scatter3D

/-- `run_dashboard` of integrated_dashboard2.py: sidebar, energy metrics,
map, trends, efficiency analysis, then the protein view's 3D simulation, in
source order, threading the object state through every call. -/
def run_dashboard2 (sel : String × String × ℕ) (u g : ℕ → ℚ)
    (s : Dash2State) : Dash2Output × Dash2State :=
  let r0 := create_sidebar2 sel s
  let r1 := show_energy_metrics2 r0.2
  let r2 := show_gsp_map2 u r1.2
  let r3 := show_energy_trends2 u r2.2
  let r4 := show_efficiency_analysis2 u r3.2
  let r5 := create_3d_protein_simulation2 u g r4.2
  ({ metrics := r1.1, mapRecs := r2.1, trends := r3.1, efficiency := r4.1,
     scatter3d := r5.1 }, r5.2)

/-- C9: the `gsp_locations` table is defined at construction and only ever
read: every render operation of integrated_dashboard2.py, and the whole
`run_dashboard` pass, returns a state whose `gsp_locations` is unchanged. -/
theorem gsp_locations_immutable (sel : String × String × ℕ) (u g : ℕ → ℚ)
    (s : Dash2State) :
    (create_sidebar2 sel s).2.gsp_locations = s.gsp_locations ∧
    (show_energy_metrics2 s).2.gsp_locations = s.gsp_locations ∧
    (show_gsp_map2 u s).2.gsp_locations = s.gsp_locations ∧
    (show_energy_trends2 u s).2.gsp_locations = s.gsp_locations ∧
    (show_efficiency_analysis2 u s).2.gsp_locations = s.gsp_locations ∧
    (create_3d_protein_simulation2 u g s).2.gsp_locations = s.gsp_locations ∧
    (run_dashboard2 sel u g s).2.gsp_locations = s.gsp_locations :=
  ⟨rfl, rfl, rfl, rfl, rfl, rfl, rfl⟩
